import Mathlib

/-!
Shallow embedding of the virtual-pet model `PiTamagotchi` from
`src/tamagotchi.py` (namespace `Tam`) and its near-duplicate in
`src/tam_sim.py` (namespace `Sim`).  Python integers become `Int`,
the pet object becomes a record, each mutating method becomes a pure
function from the old record to the new one (paired with the method's
boolean return value where it has one), and the `random.randint` calls
inside `update_tick` become explicit input draws.
-/

/-- The random draws consumed by one `update_tick` call: `roll` is the
result of the gating `random.randint` call (`randint(1, 6)` while asleep,
`randint(1, 2)` while awake), `dh` is the hunger-increment draw
(`randint(0, 1)` asleep, `randint(1, 2)` awake), and `dp` is the
happiness-decrement draw (`randint(1, 2)`, only drawn while awake). -/
structure Draws where
  roll : Nat
  dh : Int
  dp : Int
deriving DecidableEq

/-- The value ranges that the Python `random.randint` calls of
`update_tick` can actually produce, depending on the sleep flag. -/
def ValidDraws (asleep : Bool) (d : Draws) : Prop :=
  if asleep then
    1 ≤ d.roll ∧ d.roll ≤ 6 ∧ 0 ≤ d.dh ∧ d.dh ≤ 1
  else
    1 ≤ d.roll ∧ d.roll ≤ 2 ∧ 1 ≤ d.dh ∧ d.dh ≤ 2 ∧ 1 ≤ d.dp ∧ d.dp ≤ 2

/-- The mutable fields of the Python `PiTamagotchi` object.  The
`last_tick` timestamp is timing plumbing read only by the session loop,
never by the model logic, so it is omitted. -/
structure PiTamagotchi where
  hunger : Int
  happiness : Int
  age : Nat
  is_asleep : Bool
  state : String
deriving DecidableEq

/-- The pure state-derivation implemented by `PiTamagotchi.update_state`
(identical in both files): first match wins, sleep before death. -/
def derive_state (hunger happiness : Int) (asleep : Bool) : String :=
  if asleep then "asleep"
  else if hunger > 85 ∨ happiness < 15 then "dead"
  else if hunger > 70 then "hungry"
  else if happiness < 30 then "sad"
  else if happiness > 80 then "happy"
  else "neutral"

namespace Tam

/-- `PiTamagotchi.__init__` in `src/tamagotchi.py`. -/
def init : PiTamagotchi :=
  { hunger := 50, happiness := 50, age := 0, is_asleep := false,
    state := "neutral" }

/-- `PiTamagotchi.update_state` in `src/tamagotchi.py`. -/
def update_state (p : PiTamagotchi) : PiTamagotchi :=
  { p with state := derive_state p.hunger p.happiness p.is_asleep }

/-- `PiTamagotchi.update_tick` in `src/tamagotchi.py`, with the
`random.randint` results supplied as explicit draws. -/
def update_tick (p : PiTamagotchi) (d : Draws) : PiTamagotchi :=
  if p.state = "dead" then p
  else
    let p1 : PiTamagotchi := { p with age := p.age + 1 }
    let p2 : PiTamagotchi :=
      if p1.is_asleep then
        if d.roll = 1 then
          { p1 with hunger := p1.hunger + d.dh,
                    happiness := min 100 (p1.happiness + 1) }
        else p1
      else
        if d.roll = 1 then
          { p1 with hunger := p1.hunger + d.dh,
                    happiness := p1.happiness - d.dp }
        else p1
    let p3 : PiTamagotchi :=
      { p2 with hunger := max 0 (min 100 p2.hunger),
                happiness := max 0 (min 100 p2.happiness) }
    update_state p3

/-- `PiTamagotchi.feed` in `src/tamagotchi.py`: subtract, add, then
clamp both stats; the `Bool` is the Python return value. -/
def feed (p : PiTamagotchi) : Bool × PiTamagotchi :=
  if p.is_asleep ∨ p.state = "dead" then (false, p)
  else
    let p1 : PiTamagotchi :=
      { p with hunger := p.hunger - 25, happiness := p.happiness + 5 }
    let p2 : PiTamagotchi :=
      { p1 with hunger := max 0 (min 100 p1.hunger),
                happiness := max 0 (min 100 p1.happiness) }
    (true, update_state p2)

/-- `PiTamagotchi.play` in `src/tamagotchi.py`: add to both stats, then
clamp both. -/
def play (p : PiTamagotchi) : Bool × PiTamagotchi :=
  if p.is_asleep ∨ p.state = "dead" then (false, p)
  else
    let p1 : PiTamagotchi :=
      { p with happiness := p.happiness + 20, hunger := p.hunger + 10 }
    let p2 : PiTamagotchi :=
      { p1 with hunger := max 0 (min 100 p1.hunger),
                happiness := max 0 (min 100 p1.happiness) }
    (true, update_state p2)

/-- `PiTamagotchi.toggle_sleep` in `src/tamagotchi.py`. -/
def toggle_sleep (p : PiTamagotchi) : Bool × PiTamagotchi :=
  if p.state = "dead" then (false, p)
  else (true, update_state { p with is_asleep := !p.is_asleep })

end Tam

namespace Sim

/-- `PiTamagotchi.update_state` in `src/tam_sim.py` (same body as in
`src/tamagotchi.py`). -/
def update_state (p : PiTamagotchi) : PiTamagotchi :=
  { p with state := derive_state p.hunger p.happiness p.is_asleep }

/-- `PiTamagotchi.update_tick` in `src/tam_sim.py` (same body as in
`src/tamagotchi.py`). -/
def update_tick (p : PiTamagotchi) (d : Draws) : PiTamagotchi :=
  if p.state = "dead" then p
  else
    let p1 : PiTamagotchi := { p with age := p.age + 1 }
    let p2 : PiTamagotchi :=
      if p1.is_asleep then
        if d.roll = 1 then
          { p1 with hunger := p1.hunger + d.dh,
                    happiness := min 100 (p1.happiness + 1) }
        else p1
      else
        if d.roll = 1 then
          { p1 with hunger := p1.hunger + d.dh,
                    happiness := p1.happiness - d.dp }
        else p1
    let p3 : PiTamagotchi :=
      { p2 with hunger := max 0 (min 100 p2.hunger),
                happiness := max 0 (min 100 p2.happiness) }
    update_state p3

/-- `PiTamagotchi.feed` in `src/tam_sim.py`: inline `max`/`min`, no
second clamp. -/
def feed (p : PiTamagotchi) : Bool × PiTamagotchi :=
  if p.is_asleep ∨ p.state = "dead" then (false, p)
  else
    let p1 : PiTamagotchi :=
      { p with hunger := max 0 (p.hunger - 25),
               happiness := min 100 (p.happiness + 5) }
    (true, update_state p1)

/-- `PiTamagotchi.play` in `src/tam_sim.py`: inline `min`, no second
clamp. -/
def play (p : PiTamagotchi) : Bool × PiTamagotchi :=
  if p.is_asleep ∨ p.state = "dead" then (false, p)
  else
    let p1 : PiTamagotchi :=
      { p with happiness := min 100 (p.happiness + 20),
               hunger := min 100 (p.hunger + 10) }
    (true, update_state p1)

/-- `PiTamagotchi.toggle_sleep` in `src/tam_sim.py` (same body as in
`src/tamagotchi.py`). -/
def toggle_sleep (p : PiTamagotchi) : Bool × PiTamagotchi :=
  if p.state = "dead" then (false, p)
  else (true, update_state { p with is_asleep := !p.is_asleep })

end Sim

/-- One user-visible operation on the pet (a tick carries its draws). -/
inductive Op where
  | tick (d : Draws)
  | feed
  | play
  | toggle
deriving DecidableEq

/-- Apply one operation to the `tamagotchi.py` pet, keeping the state. -/
def Tam.runOp (p : PiTamagotchi) : Op → PiTamagotchi
  | Op.tick d => Tam.update_tick p d
  | Op.feed => (Tam.feed p).2
  | Op.play => (Tam.play p).2
  | Op.toggle => (Tam.toggle_sleep p).2

/-- Apply a sequence of operations to the `tamagotchi.py` pet. -/
def Tam.run (p : PiTamagotchi) : List Op → PiTamagotchi
  | [] => p
  | o :: os => Tam.run (Tam.runOp p o) os

/-- Apply one operation to the `tam_sim.py` pet, keeping the state. -/
def Sim.runOp (p : PiTamagotchi) : Op → PiTamagotchi
  | Op.tick d => Sim.update_tick p d
  | Op.feed => (Sim.feed p).2
  | Op.play => (Sim.play p).2
  | Op.toggle => (Sim.toggle_sleep p).2

/-- Apply a sequence of operations to the `tam_sim.py` pet. -/
def Sim.run (p : PiTamagotchi) : List Op → PiTamagotchi
  | [] => p
  | o :: os => Sim.run (Sim.runOp p o) os

/-- States reachable from the fresh pet by ticks (with draws the RNG can
actually produce), feeds, plays and sleep toggles. -/
inductive Reachable : PiTamagotchi → Prop where
  | init : Reachable Tam.init
  | tick {p : PiTamagotchi} (d : Draws) :
      Reachable p → ValidDraws p.is_asleep d → Reachable (Tam.update_tick p d)
  | feed {p : PiTamagotchi} : Reachable p → Reachable (Tam.feed p).2
  | play {p : PiTamagotchi} : Reachable p → Reachable (Tam.play p).2
  | toggle {p : PiTamagotchi} : Reachable p → Reachable (Tam.toggle_sleep p).2

/-- Both stats in range and the `state` field not stale. -/
def PetInv (p : PiTamagotchi) : Prop :=
  0 ≤ p.hunger ∧ p.hunger ≤ 100 ∧ 0 ≤ p.happiness ∧ p.happiness ≤ 100 ∧
  p.state = derive_state p.hunger p.happiness p.is_asleep

/-- Both stats inside the documented `[0, 100]` range. -/
def StatsInRange (p : PiTamagotchi) : Prop :=
  0 ≤ p.hunger ∧ p.hunger ≤ 100 ∧ 0 ≤ p.happiness ∧ p.happiness ≤ 100

lemma petInv_init : PetInv Tam.init := by unfold PetInv; decide

lemma petInv_update_state (p : PiTamagotchi) (h0 : 0 ≤ p.hunger)
    (h1 : p.hunger ≤ 100) (h2 : 0 ≤ p.happiness) (h3 : p.happiness ≤ 100) :
    PetInv (Tam.update_state p) :=
  ⟨h0, h1, h2, h3, rfl⟩

lemma petInv_update_tick (p : PiTamagotchi) (d : Draws) (h : PetInv p) :
    PetInv (Tam.update_tick p d) := by
  unfold Tam.update_tick
  split
  · exact h
  · apply petInv_update_state <;>
      first
        | exact le_max_left 0 _
        | exact max_le (by norm_num) (min_le_left _ _)

lemma petInv_feed (p : PiTamagotchi) (h : PetInv p) : PetInv (Tam.feed p).2 := by
  unfold Tam.feed
  split
  · exact h
  · apply petInv_update_state <;>
      first
        | exact le_max_left 0 _
        | exact max_le (by norm_num) (min_le_left _ _)

lemma petInv_play (p : PiTamagotchi) (h : PetInv p) : PetInv (Tam.play p).2 := by
  unfold Tam.play
  split
  · exact h
  · apply petInv_update_state <;>
      first
        | exact le_max_left 0 _
        | exact max_le (by norm_num) (min_le_left _ _)

lemma petInv_toggle (p : PiTamagotchi) (h : PetInv p) :
    PetInv (Tam.toggle_sleep p).2 := by
  unfold Tam.toggle_sleep
  split
  · exact h
  · exact petInv_update_state _ h.1 h.2.1 h.2.2.1 h.2.2.2.1

lemma petInv_reachable (p : PiTamagotchi) (h : Reachable p) : PetInv p := by
  induction h with
  | init => exact petInv_init
  | tick d _ _ ih => exact petInv_update_tick _ d ih
  | feed _ ih => exact petInv_feed _ ih
  | play _ ih => exact petInv_play _ ih
  | toggle _ ih => exact petInv_toggle _ ih

lemma update_state_eq_sim (p : PiTamagotchi) :
    Tam.update_state p = Sim.update_state p := rfl

lemma update_tick_eq_sim (p : PiTamagotchi) (d : Draws) :
    Tam.update_tick p d = Sim.update_tick p d := rfl

lemma toggle_sleep_eq_sim (p : PiTamagotchi) :
    Tam.toggle_sleep p = Sim.toggle_sleep p := rfl

lemma feed_eq_sim (p : PiTamagotchi) (h : StatsInRange p) :
    Tam.feed p = Sim.feed p := by
  obtain ⟨h0, h1, h2, h3⟩ := h
  unfold Tam.feed Sim.feed
  split
  · rfl
  · have e1 : max 0 (min 100 (p.hunger - 25)) = max 0 (p.hunger - 25) := by
      omega
    have e2 : max 0 (min 100 (p.happiness + 5)) = min 100 (p.happiness + 5) := by
      omega
    unfold Tam.update_state Sim.update_state
    simp only [e1, e2]

lemma play_eq_sim (p : PiTamagotchi) (h : StatsInRange p) :
    Tam.play p = Sim.play p := by
  obtain ⟨h0, h1, h2, h3⟩ := h
  unfold Tam.play Sim.play
  split
  · rfl
  · have e1 : max 0 (min 100 (p.hunger + 10)) = min 100 (p.hunger + 10) := by
      omega
    have e2 : max 0 (min 100 (p.happiness + 20)) = min 100 (p.happiness + 20) := by
      omega
    unfold Tam.update_state Sim.update_state
    simp only [e1, e2]

lemma clamp_nonneg (x : Int) : 0 ≤ max 0 (min 100 x) :=
  le_max_left 0 (min 100 x)

lemma clamp_le (x : Int) : max 0 (min 100 x) ≤ 100 :=
  max_le (by norm_num) (min_le_left 100 x)

lemma statsInRange_update_tick (p : PiTamagotchi) (d : Draws)
    (h : StatsInRange p) : StatsInRange (Tam.update_tick p d) := by
  unfold Tam.update_tick
  split
  · exact h
  · exact ⟨clamp_nonneg _, clamp_le _, clamp_nonneg _, clamp_le _⟩

lemma statsInRange_feed (p : PiTamagotchi) (h : StatsInRange p) :
    StatsInRange (Tam.feed p).2 := by
  unfold Tam.feed
  split
  · exact h
  · exact ⟨clamp_nonneg _, clamp_le _, clamp_nonneg _, clamp_le _⟩

lemma statsInRange_play (p : PiTamagotchi) (h : StatsInRange p) :
    StatsInRange (Tam.play p).2 := by
  unfold Tam.play
  split
  · exact h
  · exact ⟨clamp_nonneg _, clamp_le _, clamp_nonneg _, clamp_le _⟩

lemma statsInRange_toggle (p : PiTamagotchi) (h : StatsInRange p) :
    StatsInRange (Tam.toggle_sleep p).2 := by
  unfold Tam.toggle_sleep
  split
  · exact h
  · exact ⟨h.1, h.2.1, h.2.2.1, h.2.2.2⟩

lemma statsInRange_runOp (p : PiTamagotchi) (o : Op) (h : StatsInRange p) :
    StatsInRange (Tam.runOp p o) := by
  cases o with
  | tick d => exact statsInRange_update_tick p d h
  | feed => exact statsInRange_feed p h
  | play => exact statsInRange_play p h
  | toggle => exact statsInRange_toggle p h

lemma runOp_eq_sim (p : PiTamagotchi) (o : Op) (h : StatsInRange p) :
    Tam.runOp p o = Sim.runOp p o := by
  cases o with
  | tick d => exact update_tick_eq_sim p d
  | feed =>
      show (Tam.feed p).2 = (Sim.feed p).2
      rw [feed_eq_sim p h]
  | play =>
      show (Tam.play p).2 = (Sim.play p).2
      rw [play_eq_sim p h]
  | toggle => rfl

lemma run_eq_sim (ops : List Op) (p : PiTamagotchi) (h : StatsInRange p) :
    Tam.run p ops = Sim.run p ops := by
  induction ops generalizing p with
  | nil => rfl
  | cons o os ih =>
      rw [Tam.run, Sim.run, ← runOp_eq_sim p o h]
      exact ih (Tam.runOp p o) (statsInRange_runOp p o h)

/-- C1: for every reachable pet state (from hunger=50, happiness=50,
age=0, awake, state=neutral, under any sequence of `update_tick`, `feed`,
`play`, `toggle_sleep` with any random draws), hunger and happiness are
integers in `[0, 100]` after every operation completes. -/
theorem stats_bounded_of_reachable (p : PiTamagotchi) (h : Reachable p) :
    StatsInRange p := by
  have hi := petInv_reachable p h
  exact ⟨hi.1, hi.2.1, hi.2.2.1, hi.2.2.2.1⟩

/-- Witness for C1: the bounds hold at the reachable state obtained by
feeding the fresh pet once. -/
theorem stats_bounded_witness : StatsInRange (Tam.feed Tam.init).2 :=
  stats_bounded_of_reachable (Tam.feed Tam.init).2
    (Reachable.feed Reachable.init)

/-- C4: in every reachable pet state, the `state` field equals the pure
derivation from (hunger, happiness, is_asleep) with first-match-wins
precedence (asleep, then dead, hungry, sad, happy, neutral); the field is
never stale since every mutation re-derives it. -/
theorem state_derived_of_reachable (p : PiTamagotchi) (h : Reachable p) :
    p.state = derive_state p.hunger p.happiness p.is_asleep :=
  (petInv_reachable p h).2.2.2.2

/-- Witness for C4: after one feed of the fresh pet, the `state` field
matches the pure derivation of the new stats. -/
theorem state_derived_witness :
    (Tam.feed Tam.init).2.state =
      derive_state (Tam.feed Tam.init).2.hunger (Tam.feed Tam.init).2.happiness
        (Tam.feed Tam.init).2.is_asleep :=
  state_derived_of_reachable (Tam.feed Tam.init).2
    (Reachable.feed Reachable.init)

/-- C3: in every reachable pet state, `is_asleep = true` forces the state
field to be `"asleep"`, even with lethal stats; in particular a sleeping
pet never carries (so never silently enters) the `"dead"` state. -/
theorem asleep_state_of_reachable (p : PiTamagotchi) (h : Reachable p)
    (ha : p.is_asleep = true) :
    p.state = "asleep" ∧ p.state ≠ "dead" := by
  have hs := (petInv_reachable p h).2.2.2.2
  have he : p.state = "asleep" := by
    rw [hs, ha]
    simp [derive_state]
  exact ⟨he, by rw [he]; decide⟩

/-- Witness for C3: toggling the fresh pet to sleep gives a reachable
sleeping pet, and its state is `"asleep"`. -/
theorem asleep_state_witness :
    (Tam.toggle_sleep Tam.init).2.state = "asleep" ∧
    (Tam.toggle_sleep Tam.init).2.state ≠ "dead" :=
  asleep_state_of_reachable (Tam.toggle_sleep Tam.init).2
    (Reachable.toggle Reachable.init) rfl

/-- C2: death is absorbing: on any pet whose state field is `"dead"`,
`update_tick` (with any draws), `feed`, `play` and `toggle_sleep` return
the guard failure and leave every field unchanged, and hence any sequence
of operations leaves the pet exactly as it was (n ticks equal zero
ticks). -/
theorem dead_absorbing (p : PiTamagotchi) (h : p.state = "dead") :
    (∀ d : Draws, Tam.update_tick p d = p) ∧
    Tam.feed p = (false, p) ∧
    Tam.play p = (false, p) ∧
    Tam.toggle_sleep p = (false, p) ∧
    (∀ ops : List Op, Tam.run p ops = p) := by
  have ht : ∀ d : Draws, Tam.update_tick p d = p := by
    intro d
    unfold Tam.update_tick
    rw [if_pos h]
  have hf : Tam.feed p = (false, p) := by
    unfold Tam.feed
    rw [if_pos (Or.inr h)]
  have hp : Tam.play p = (false, p) := by
    unfold Tam.play
    rw [if_pos (Or.inr h)]
  have hg : Tam.toggle_sleep p = (false, p) := by
    unfold Tam.toggle_sleep
    rw [if_pos h]
  have hop : ∀ o : Op, Tam.runOp p o = p := by
    intro o
    cases o with
    | tick d => exact ht d
    | feed => show (Tam.feed p).2 = p; rw [hf]
    | play => show (Tam.play p).2 = p; rw [hp]
    | toggle => show (Tam.toggle_sleep p).2 = p; rw [hg]
  refine ⟨ht, hf, hp, hg, ?_⟩
  intro ops
  induction ops with
  | nil => rfl
  | cons o os ih => rw [Tam.run, hop o]; exact ih

/-- Witness for C2: a concrete dead pet is left untouched by a sequence
of a feed, a play, a toggle and a tick. -/
theorem dead_absorbing_witness :
    Tam.run
      { hunger := 90, happiness := 50, age := 3, is_asleep := false,
        state := "dead" }
      [Op.feed, Op.play, Op.toggle, Op.tick { roll := 1, dh := 2, dp := 1 }] =
    { hunger := 90, happiness := 50, age := 3, is_asleep := false,
      state := "dead" } :=
  (dead_absorbing
    { hunger := 90, happiness := 50, age := 3, is_asleep := false,
      state := "dead" } rfl).2.2.2.2
    [Op.feed, Op.play, Op.toggle, Op.tick { roll := 1, dh := 2, dp := 1 }]

/-- C5: on a non-dead pet, `update_tick` increments age by exactly one,
keeps the sleep flag, and — with randomness as explicit draws — follows
the asleep branch (on a 1-in-6 roll, `hunger += U(0,1)` and
`happiness := min 100 (happiness + 1)`) or the awake branch (on a 1-in-2
roll, `hunger += U(1,2)` and `happiness -= U(1,2)`), changes no stat on a
failed roll, then clamps both stats to `[0, 100]` and re-derives the
state field. -/
theorem update_tick_spec (p : PiTamagotchi) (d : Draws)
    (hnd : p.state ≠ "dead") (hv : ValidDraws p.is_asleep d) :
    (Tam.update_tick p d).age = p.age + 1 ∧
    (Tam.update_tick p d).is_asleep = p.is_asleep ∧
    (p.is_asleep = true → d.roll = 1 →
      (Tam.update_tick p d).hunger = max 0 (min 100 (p.hunger + d.dh)) ∧
      (Tam.update_tick p d).happiness =
        max 0 (min 100 (min 100 (p.happiness + 1)))) ∧
    (p.is_asleep = false → d.roll = 1 →
      (Tam.update_tick p d).hunger = max 0 (min 100 (p.hunger + d.dh)) ∧
      (Tam.update_tick p d).happiness =
        max 0 (min 100 (p.happiness - d.dp))) ∧
    (d.roll ≠ 1 →
      (Tam.update_tick p d).hunger = max 0 (min 100 p.hunger) ∧
      (Tam.update_tick p d).happiness = max 0 (min 100 p.happiness)) ∧
    (Tam.update_tick p d).state =
      derive_state (Tam.update_tick p d).hunger (Tam.update_tick p d).happiness
        p.is_asleep := by
  unfold Tam.update_tick Tam.update_state
  rw [if_neg hnd]
  cases hb : p.is_asleep <;> by_cases hr : d.roll = 1 <;>
    simp [hb, hr, derive_state]

/-- Witness for C5: ticking the fresh (awake, non-dead) pet with a
successful roll and draws 2 and 2 ages it to 1. -/
theorem update_tick_spec_witness :
    Tam.init.state ≠ "dead" ∧
    ValidDraws Tam.init.is_asleep { roll := 1, dh := 2, dp := 2 } ∧
    (Tam.update_tick Tam.init { roll := 1, dh := 2, dp := 2 }).age =
      Tam.init.age + 1 := by
  refine ⟨by decide, by unfold ValidDraws; decide, ?_⟩
  exact (update_tick_spec Tam.init { roll := 1, dh := 2, dp := 2 }
    (by decide) (by unfold ValidDraws; decide)).1

/-- C6: `feed` and `play` return `false` with the whole pet unchanged
exactly when the pet is asleep or dead, and `toggle_sleep` returns
`false` with the pet unchanged exactly when the pet is dead; every
operation is a total function (failure means no mutation at all). -/
theorem action_guard_iff (p : PiTamagotchi) :
    ((Tam.feed p).1 = false ∧ (Tam.feed p).2 = p ↔
      p.is_asleep = true ∨ p.state = "dead") ∧
    ((Tam.play p).1 = false ∧ (Tam.play p).2 = p ↔
      p.is_asleep = true ∨ p.state = "dead") ∧
    ((Tam.toggle_sleep p).1 = false ∧ (Tam.toggle_sleep p).2 = p ↔
      p.state = "dead") := by
  unfold Tam.feed Tam.play Tam.toggle_sleep
  refine ⟨?_, ?_, ?_⟩ <;> split <;> simp_all

/-- C7: on an awake, non-dead pet with stats in range, `feed` sets
`hunger := max 0 (hunger - 25)`, `happiness := min 100 (happiness + 5)`,
re-derives state, leaves age and the sleep flag unchanged, and returns
`true`. -/
theorem feed_spec (p : PiTamagotchi) (ha : p.is_asleep = false)
    (hd : p.state ≠ "dead") (hb : StatsInRange p) :
    (Tam.feed p).1 = true ∧
    (Tam.feed p).2.hunger = max 0 (p.hunger - 25) ∧
    (Tam.feed p).2.happiness = min 100 (p.happiness + 5) ∧
    (Tam.feed p).2.age = p.age ∧
    (Tam.feed p).2.is_asleep = p.is_asleep ∧
    (Tam.feed p).2.state =
      derive_state (Tam.feed p).2.hunger (Tam.feed p).2.happiness
        p.is_asleep := by
  obtain ⟨h0, h1, h2, h3⟩ := hb
  have hg : ¬(p.is_asleep = true ∨ p.state = "dead") := by
    simp [ha, hd]
  unfold Tam.feed Tam.update_state
  rw [if_neg hg]
  have e1 : max 0 (min 100 (p.hunger - 25)) = max 0 (p.hunger - 25) := by
    omega
  have e2 : max 0 (min 100 (p.happiness + 5)) = min 100 (p.happiness + 5) := by
    omega
  simp [e1, e2]

/-- Witness for C7 (scenario 1): feeding the fresh pet yields hunger 25,
happiness 55, state neutral, and returns `true`. -/
theorem feed_spec_witness :
    (Tam.feed Tam.init).1 = true ∧ (Tam.feed Tam.init).2.hunger = 25 ∧
    (Tam.feed Tam.init).2.happiness = 55 ∧
    (Tam.feed Tam.init).2.state = "neutral" := by
  have h := feed_spec Tam.init rfl (by decide)
    (by unfold StatsInRange; decide)
  exact ⟨h.1, by decide, by decide, by decide⟩

/-- C8: on an awake, non-dead pet with stats in range, `play` sets
`happiness := min 100 (happiness + 20)`, `hunger := min 100 (hunger + 10)`,
re-derives state, leaves age and the sleep flag unchanged, and returns
`true`. -/
theorem play_spec (p : PiTamagotchi) (ha : p.is_asleep = false)
    (hd : p.state ≠ "dead") (hb : StatsInRange p) :
    (Tam.play p).1 = true ∧
    (Tam.play p).2.happiness = min 100 (p.happiness + 20) ∧
    (Tam.play p).2.hunger = min 100 (p.hunger + 10) ∧
    (Tam.play p).2.age = p.age ∧
    (Tam.play p).2.is_asleep = p.is_asleep ∧
    (Tam.play p).2.state =
      derive_state (Tam.play p).2.hunger (Tam.play p).2.happiness
        p.is_asleep := by
  obtain ⟨h0, h1, h2, h3⟩ := hb
  have hg : ¬(p.is_asleep = true ∨ p.state = "dead") := by
    simp [ha, hd]
  unfold Tam.play Tam.update_state
  rw [if_neg hg]
  have e1 : max 0 (min 100 (p.hunger + 10)) = min 100 (p.hunger + 10) := by
    omega
  have e2 : max 0 (min 100 (p.happiness + 20)) = min 100 (p.happiness + 20) := by
    omega
  simp [e1, e2]

/-- Witness for C8 (scenario 2): playing at happiness 95 clamps
happiness to 100 (not 115) while hunger rises by 10, returning `true`. -/
theorem play_spec_witness :
    (Tam.play
      { hunger := 50, happiness := 95, age := 2, is_asleep := false,
        state := "happy" }).1 = true ∧
    (Tam.play
      { hunger := 50, happiness := 95, age := 2, is_asleep := false,
        state := "happy" }).2.happiness = 100 ∧
    (Tam.play
      { hunger := 50, happiness := 95, age := 2, is_asleep := false,
        state := "happy" }).2.hunger = 60 := by
  have h := play_spec
    { hunger := 50, happiness := 95, age := 2, is_asleep := false,
      state := "happy" } rfl (by decide) (by unfold StatsInRange; decide)
  exact ⟨h.1, by decide, by decide⟩

/-- C9: on any non-dead pet, `toggle_sleep` flips the sleep flag, leaves
hunger, happiness and age unchanged, re-derives the state from the
flipped flag, and returns `true`; toggling into sleep always yields
state `"asleep"` even with lethal stats, while waking re-derives (and
with lethal stats immediately yields `"dead"`). -/
theorem toggle_sleep_spec (p : PiTamagotchi) (hd : p.state ≠ "dead") :
    (Tam.toggle_sleep p).1 = true ∧
    (Tam.toggle_sleep p).2.is_asleep = !p.is_asleep ∧
    (Tam.toggle_sleep p).2.hunger = p.hunger ∧
    (Tam.toggle_sleep p).2.happiness = p.happiness ∧
    (Tam.toggle_sleep p).2.age = p.age ∧
    (Tam.toggle_sleep p).2.state =
      derive_state p.hunger p.happiness (!p.is_asleep) ∧
    (p.is_asleep = false → (Tam.toggle_sleep p).2.state = "asleep") := by
  unfold Tam.toggle_sleep Tam.update_state
  rw [if_neg hd]
  refine ⟨rfl, rfl, rfl, rfl, rfl, rfl, ?_⟩
  intro ha
  simp [ha, derive_state]

/-- Witness for C9 (scenarios 4 and 5): an awake pet with lethal stats
(hunger 90, happiness 10) toggled into sleep shows `"asleep"`, and an
asleep pet with hunger 90 toggled awake immediately shows `"dead"`. -/
theorem toggle_sleep_spec_witness :
    (Tam.toggle_sleep
      { hunger := 90, happiness := 10, age := 4, is_asleep := false,
        state := "hungry" }).2.state = "asleep" ∧
    (Tam.toggle_sleep
      { hunger := 90, happiness := 50, age := 4, is_asleep := true,
        state := "asleep" }).2.state = "dead" := by
  constructor
  · exact (toggle_sleep_spec
      { hunger := 90, happiness := 10, age := 4, is_asleep := false,
        state := "hungry" } (by decide)).2.2.2.2.2.2 rfl
  · have h := (toggle_sleep_spec
      { hunger := 90, happiness := 50, age := 4, is_asleep := true,
        state := "asleep" } (by decide)).2.2.2.2.2.1
    rw [h]
    decide

/-- C10: the `PiTamagotchi` of `src/tamagotchi.py` and the one of
`src/tam_sim.py` are behaviorally equivalent on every state with stats
in `[0, 100]`: `update_state`, `update_tick` (for every draw), `feed`,
`play` and `toggle_sleep` yield identical states and return values, and
hence every sequence of operations yields identical states, despite the
differently-written feed/play clamping. -/
theorem tam_sim_equiv (p : PiTamagotchi) (hb : StatsInRange p) :
    Tam.update_state p = Sim.update_state p ∧
    (∀ d : Draws, Tam.update_tick p d = Sim.update_tick p d) ∧
    Tam.feed p = Sim.feed p ∧
    Tam.play p = Sim.play p ∧
    Tam.toggle_sleep p = Sim.toggle_sleep p ∧
    (∀ ops : List Op, Tam.run p ops = Sim.run p ops) :=
  ⟨update_state_eq_sim p, update_tick_eq_sim p, feed_eq_sim p hb,
   play_eq_sim p hb, toggle_sleep_eq_sim p,
   fun ops => run_eq_sim ops p hb⟩

/-- Witness for C10: at the fresh pet both implementations agree on a
feed; shown by applying the equivalence at the in-range fresh state. -/
theorem tam_sim_equiv_witness :
    Tam.feed Tam.init = Sim.feed Tam.init :=
  (tam_sim_equiv Tam.init (by unfold StatsInRange; decide)).2.2.1
